import Mathlib

/-!
Shallow embedding of the task-classification-and-dispatch agent
(src/agents/research_agent.py and src/agents/base_agent.py).

Python dictionaries are modelled as insertion-ordered association lists,
Python values by the inductive type PyVal, and Python exceptions by the
Except monad: a function that can raise returns Except PyErr, and a caught
exception is an Except.error value that is observed and discarded.
String lowering models str.lower on the ASCII range.
-/

/-- A Python runtime value, as far as the agent code manipulates values:
None, booleans, integers, strings, lists and string-keyed dictionaries. -/
inductive PyVal where
  | none
  | bool (b : Bool)
  | int (n : Int)
  | str (s : String)
  | list (xs : List PyVal)
  | dict (kvs : List (String × PyVal))
deriving Repr

/-- A raised Python exception, abstracted to the classes the agent code can
produce. -/
inductive PyErr where
  | typeError
  | attributeError
  | keyError
deriving Repr, DecidableEq

/-- Dictionary lookup: dget d k is the value stored under key k, if any. -/
def dget {α : Type} (d : List (String × α)) (k : String) : Option α :=
  match d.find? (fun p => p.1 == k) with
  | Option.some p => Option.some p.2
  | Option.none => Option.none

/-- Python dict.get with a default value. -/
def dgetD {α : Type} (d : List (String × α)) (k : String) (v : α) : α :=
  (dget d k).getD v

/-- Python dict assignment d[k] = v: replaces the value in place if the key
exists, otherwise appends the new binding at the end. -/
def dictSet {α : Type} : List (String × α) → String → α → List (String × α)
  | [], k, v => [(k, v)]
  | (k0, v0) :: rest, k, v =>
    if k0 == k then (k, v) :: rest else (k0, v0) :: dictSet rest k v

/-- Python truthiness of a value. -/
def truthy : PyVal → Bool
  | .none => false
  | .bool b => b
  | .int n => !(n == 0)
  | .str s => !s.isEmpty
  | .list xs => !xs.isEmpty
  | .dict kvs => !kvs.isEmpty

/-- Python equality test between a value and a string literal. -/
def pyEqStr (v : PyVal) (s : String) : Bool :=
  match v with
  | .str t => t == s
  | _ => false

/-- ASCII lowercase of one character, modelling str.lower. -/
def lowerChar (c : Char) : Char :=
  if 65 ≤ c.toNat ∧ c.toNat ≤ 90 then Char.ofNat (c.toNat + 32) else c

/-- ASCII uppercase of one character, modelling str.upper. -/
def upperChar (c : Char) : Char :=
  if 97 ≤ c.toNat ∧ c.toNat ≤ 122 then Char.ofNat (c.toNat - 32) else c

/-- Lowercase a string, modelling task.lower(). -/
def strLower (s : String) : String := String.mk (s.data.map lowerChar)

/-- Uppercase a string, modelling key.upper(). -/
def strUpper (s : String) : String := String.mk (s.data.map upperChar)

/-- Does the character list p occur at the start of s. -/
def startsWithL : List Char → List Char → Bool
  | [], _ => true
  | _ :: _, [] => false
  | a :: as, b :: bs => a == b && startsWithL as bs

/-- Does the character list p occur anywhere inside s. -/
def containsL : List Char → List Char → Bool
  | p, [] => p.isEmpty
  | p, c :: cs => startsWithL p (c :: cs) || containsL p cs

/-- Python substring test: pat in s. -/
def strContains (s pat : String) : Bool := containsL pat.data s.data

mutual
/-- Python repr of a value (quoting simplified to plain single quotes). -/
def pyRepr : PyVal → String
  | .none => "None"
  | .bool b => cond b "True" "False"
  | .int n => toString n
  | .str s => "\x27" ++ s ++ "\x27"
  | .list xs => "[" ++ pyReprList xs ++ "]"
  | .dict kvs => "\x7b" ++ pyReprDict kvs ++ "\x7d"
/-- Comma-separated repr of list elements. -/
def pyReprList : List PyVal → String
  | [] => ""
  | [x] => pyRepr x
  | x :: y :: xs => pyRepr x ++ ", " ++ pyReprList (y :: xs)
/-- Comma-separated repr of dict entries. -/
def pyReprDict : List (String × PyVal) → String
  | [] => ""
  | [(k, v)] => "\x27" ++ k ++ "\x27: " ++ pyRepr v
  | (k, v) :: p :: xs => "\x27" ++ k ++ "\x27: " ++ pyRepr v ++ ", " ++ pyReprDict (p :: xs)
end

/-- Python str of a value, as used by f-string interpolation. -/
def pyStr : PyVal → String
  | .str s => s
  | v => pyRepr v

/-- Python membership test k in v. Dicts test key presence, lists test
element equality with the string, strings test substring containment; the
other types are not iterable and raise TypeError. -/
def pyContains (v : PyVal) (k : String) : Except PyErr Bool :=
  match v with
  | .dict kvs => Except.ok (dget kvs k).isSome
  | .list xs => Except.ok (xs.any (fun x => pyEqStr x k))
  | .str s => Except.ok (strContains s k)
  | _ => Except.error PyErr.typeError

/-- Python subscript v[k] with a string key. Only dicts support it; a
missing key raises KeyError, any other receiver raises TypeError. -/
def pySubscript (v : PyVal) (k : String) : Except PyErr PyVal :=
  match v with
  | .dict kvs =>
    match dget kvs k with
    | Option.some x => Except.ok x
    | Option.none => Except.error PyErr.keyError
  | _ => Except.error PyErr.typeError

/-- Python method call v.get(k, default). Only dicts have a get method;
any other receiver raises AttributeError. -/
def pyDictGet (v : PyVal) (k : String) (dflt : PyVal) : Except PyErr PyVal :=
  match v with
  | .dict kvs => Except.ok (dgetD kvs k dflt)
  | _ => Except.error PyErr.attributeError

/-- Python iteration over a value: lists yield elements, strings yield
one-character strings, dicts yield their keys; other types raise TypeError. -/
def pyIter : PyVal → Except PyErr (List PyVal)
  | .list xs => Except.ok xs
  | .str s => Except.ok (s.data.map (fun c => PyVal.str (String.mk [c])))
  | .dict kvs => Except.ok (kvs.map (fun p => PyVal.str p.1))
  | _ => Except.error PyErr.typeError

/-- Python v.items(): only dicts have items; other receivers raise
AttributeError. -/
def pyItems : PyVal → Except PyErr (List (String × PyVal))
  | .dict kvs => Except.ok kvs
  | _ => Except.error PyErr.attributeError

/-- Extract the characters of the string elements for sep.join(v); a
non-string element raises TypeError. -/
def pyStrElems : List PyVal → Except PyErr (List String)
  | [] => Except.ok []
  | .str s :: rest => do
    let ss ← pyStrElems rest
    Except.ok (s :: ss)
  | _ :: _ => Except.error PyErr.typeError

/-- Python sep.join(v): iterates v and concatenates its string elements
separated by sep. -/
def pyJoin (sep : String) (v : PyVal) : Except PyErr String := do
  let xs ← pyIter v
  let ss ← pyStrElems xs
  Except.ok (String.intercalate sep ss)

/-- Memory, from base_agent.py: the Agent memory tracking state and
history. -/
structure Memory where
  task : PyVal := PyVal.none
  thoughts : List String := []
  tool_calls : Nat := 0
  findings : List String := []
  history : List String := []
deriving Repr

/-- Memory.set_task from base_agent.py. -/
def Memory.set_task (m : Memory) (task : PyVal) : Memory :=
  { m with task := task, history := m.history ++ ["Task set: " ++ pyStr task] }

/-- Memory.add_thoughts from base_agent.py. -/
def Memory.add_thoughts (m : Memory) (thought : String) : Memory :=
  { m with thoughts := m.thoughts ++ [thought],
           history := m.history ++ ["Thought: " ++ thought] }

/-- Memory.record_tool_call from base_agent.py. -/
def Memory.record_tool_call (m : Memory) (tool_name : String) : Memory :=
  { m with tool_calls := m.tool_calls + 1,
           history := m.history ++ ["Tool called: " ++ tool_name] }

/-- Memory.add_finding from base_agent.py. -/
def Memory.add_finding (m : Memory) (finding : String) : Memory :=
  { m with findings := m.findings ++ [finding],
           history := m.history ++ ["Finding: " ++ finding] }

/-- Memory.get_summary from base_agent.py. -/
def Memory.get_summary (m : Memory) : PyVal :=
  PyVal.dict [
    ("task", m.task),
    ("thoughts", PyVal.list (m.thoughts.map PyVal.str)),
    ("tool_calls", PyVal.int m.tool_calls),
    ("findings", PyVal.list (m.findings.map PyVal.str)),
    ("history_length", PyVal.int m.history.length)]

/-- Memory.clear from base_agent.py: reset to the initial state. -/
def Memory.clear (_ : Memory) : Memory := {}

/-- A connector object as the orchestrator sees it: for each of the three
probed capability names, either the method is absent or it is a function
from the argument to a returned value or a raised exception. The caught
body of _execute_scraper observes the Except result. -/
structure Scraper where
  fetch_prices : Option (PyVal → Except PyErr PyVal) := Option.none
  fetch_article : Option (PyVal → Except PyErr PyVal) := Option.none
  fetch_general : Option (PyVal → Except PyErr PyVal) := Option.none

/-- Outcome of one guarded connector call inside the try block of
_execute_scraper: a raised exception is caught and converted to None. -/
def fetchOutcome : Except PyErr PyVal → PyVal
  | Except.ok v => v
  | Except.error _ => PyVal.none

/-- ResearchAgent state: the connector registry, the result log, the
shared memory ledger, and the remaining constructor-initialised fields. -/
structure Agent where
  name : String := "ResearchAgent"
  description : String := "Researches topics using web scrapers and analysis"
  memory : Memory := {}
  scraper_tools : List (String × Scraper) := []
  search_results : List PyVal := []
  max_research_depth : Nat := 3

/-- ResearchAgent.register_scraper. -/
def register_scraper (a : Agent) (scraper_name : String) (scraper_object : Scraper) : Agent :=
  { a with scraper_tools := dictSet a.scraper_tools scraper_name scraper_object }

/-- ResearchAgent.__init__: fresh agent with the three default scrapers
registered under crypto, news and general. The scraper instances are
parameters because their fetch bodies are out-of-scope network code. -/
def mkResearchAgent (c n g : Scraper) : Agent :=
  register_scraper (register_scraper (register_scraper {} "crypto" c) "news" n) "general" g

/-- ResearchAgent._parse_task: validates the input and classifies it by
ordered keyword matching on the lowercased text. -/
def parse_task (task : PyVal) : List (String × PyVal) :=
  match task with
  | .str s =>
    if s.isEmpty then []
    else
      let task_lower := strLower s
      if strContains task_lower "bitcoin" || strContains task_lower "btc" ||
          strContains task_lower "crypto" then
        [("topic", PyVal.str s), ("query", PyVal.str "bitcoin"), ("type", PyVal.str "crypto")]
      else if strContains task_lower "news" || strContains task_lower "article" then
        [("topic", PyVal.str s), ("query", PyVal.str s), ("type", PyVal.str "news")]
      else
        [("topic", PyVal.str s), ("query", PyVal.str s), ("type", PyVal.str "general")]
  | _ => []

/-- ResearchAgent._decide_scraper: maps the classified type to a scraper
name. -/
def decide_scraper (parsed_task : List (String × PyVal)) : String :=
  let task_type := dgetD parsed_task "type" (PyVal.str "general")
  if pyEqStr task_type "crypto" then "crypto"
  else if pyEqStr task_type "news" then "news"
  else "general"

/-- ResearchAgent._execute_scraper: probes fetch_prices, fetch_article,
fetch_general in that order, calls the first one present (fetch_prices on
the singleton list of the query, the others on the query itself), catches
any exception as None, and returns None when no capability is present. -/
def execute_scraper (scraper : Scraper) (parsed_task : List (String × PyVal)) : PyVal :=
  let query := dgetD parsed_task "query" PyVal.none
  match scraper.fetch_prices with
  | Option.some f => fetchOutcome (f (PyVal.list [query]))
  | Option.none =>
    match scraper.fetch_article with
    | Option.some f => fetchOutcome (f query)
    | Option.none =>
      match scraper.fetch_general with
      | Option.some f => fetchOutcome (f query)
      | Option.none => PyVal.none

/-- The key/value dump loop of the crypto branch of _analyze_data. -/
def cryptoLines (kvs : List (String × PyVal)) (acc : String) : String :=
  kvs.foldl (fun acc2 kv =>
    if ["query", "source", "success"].contains kv.1 then acc2
    else acc2 ++ strUpper kv.1 ++ ": " ++ pyStr kv.2 ++ "\n") acc

/-- The article loop of the news branch of _analyze_data, numbering from i. -/
def newsLoop : Nat → List PyVal → String → Except PyErr String
  | _, [], acc => Except.ok acc
  | i, article :: rest, acc => do
    let t ← pyDictGet article "title" (PyVal.str "N/A")
    let c ← pyDictGet article "content" (PyVal.str "N/A")
    let s ← pyDictGet article "source" (PyVal.str "N/A")
    let d ← pyDictGet article "date" (PyVal.str "N/A")
    newsLoop (i + 1) rest (acc ++ "Article " ++ toString i ++ ": " ++ pyStr t ++ "\n" ++
      "Content: " ++ pyStr c ++ "\n" ++ "Source: " ++ pyStr s ++ "\n" ++
      "Date: " ++ pyStr d ++ "\n\n")

/-- The optional list-valued fields of the general branch of _analyze_data:
key, line label, join separator, in source order. -/
def generalFieldSpecs : List (String × String × String) :=
  [("applications", "Key Applications: ", ", "),
   ("examples", "Examples: ", ", "),
   ("types", "Types: ", ", "),
   ("libraries", "Popular Libraries/Tools: ", ", "),
   ("use_cases", "Use Cases: ", ", "),
   ("layers", "Components: ", ", "),
   ("process", "Process Steps: ", " → ")]

/-- The chain of optional field lines of the general branch of
_analyze_data. -/
def generalFields (info : PyVal) : List (String × String × String) → String → Except PyErr String
  | [], acc => Except.ok acc
  | (k, label, sep) :: rest, acc => do
    let b ← pyContains info k
    if b then do
      let v ← pySubscript info k
      let j ← pyJoin sep v
      generalFields info rest (acc ++ label ++ j ++ "\n")
    else generalFields info rest acc

/-- ResearchAgent._analyze_data: formats the scraped data per category.
The body is not guarded by any try/except in the source, so an ill-shaped
value raises and the exception propagates to the caller. -/
def analyze_data (data : PyVal) (parsed_task : List (String × PyVal)) : Except PyErr String :=
  if !truthy data then Except.ok "No data to analyze"
  else
    let task_type := dgetD parsed_task "type" PyVal.none
    let topic := dgetD parsed_task "topic" PyVal.none
    if pyEqStr task_type "crypto" then do
      let header := "Research findings for " ++ pyStr topic ++ ":\n\n"
      let hasResults ← pyContains data "results"
      if hasResults then do
        let results ← pySubscript data "results"
        let symbol ← pyDictGet results "symbol" (PyVal.str "")
        let price ← pyDictGet results "price" (PyVal.str "N/A")
        let change ← pyDictGet results "change" (PyVal.str "N/A")
        let mcap ← pyDictGet results "market_cap" (PyVal.str "N/A")
        Except.ok (header ++ pyStr symbol ++ " Information:\n" ++
          "Current Price: " ++ pyStr price ++ "\n" ++
          "24h Change: " ++ pyStr change ++ "\n" ++
          "Market Cap: " ++ pyStr mcap ++ "\n")
      else do
        let kvs ← pyItems data
        Except.ok (cryptoLines kvs header)
    else if pyEqStr task_type "news" then do
      let header := "Research findings for " ++ pyStr topic ++ ":\n\n"
      let hasArticles ← pyContains data "articles"
      if hasArticles then do
        let articles ← pySubscript data "articles"
        let arts ← pyIter articles
        newsLoop 1 arts header
      else Except.ok header
    else if pyEqStr task_type "general" then do
      let header := "Research findings for " ++ pyStr topic ++ ":\n\n"
      let hasInfo ← pyContains data "info"
      if hasInfo then do
        let info ← pySubscript data "info"
        let title ← pyDictGet info "title" (PyVal.str "Information")
        let descr ← pyDictGet info "description" (PyVal.str "")
        generalFields info generalFieldSpecs
          (header ++ "**" ++ pyStr title ++ "**\n\n" ++ pyStr descr ++ "\n\n")
      else Except.ok header
    else
      Except.ok ("Research findings for " ++ pyStr topic ++ ":\n" ++ pyStr data ++ "\n")

/-- The thought message recorded by run for the chosen scraper name. -/
def thoughtMsg (scraper_name : String) : String :=
  "Decided to use: \x27" ++ scraper_name ++ "\x27 scraper for this research"

/-- ResearchAgent.run: the orchestrator. Returns the outcome (a returned
value or a propagated exception) together with the post-call agent state;
the Python object state survives a raised exception, so the state is
returned on every path. -/
def run (a0 : Agent) (task : PyVal) : Except PyErr PyVal × Agent :=
  let a := { a0 with memory := a0.memory.set_task task }
  let parsed_task := parse_task task
  if parsed_task.isEmpty then
    (Except.ok (PyVal.dict [
      ("error", PyVal.str "Could not parse the research task"),
      ("task", task),
      ("success", PyVal.bool false)]), a)
  else
    let scraper_name := decide_scraper parsed_task
    let a := { a with memory := a.memory.add_thoughts (thoughtMsg scraper_name) }
    match dget a.scraper_tools scraper_name with
    | Option.none =>
      (Except.ok (PyVal.dict [
        ("error", PyVal.str ("Scraper \x27" ++ scraper_name ++ "\x27 not registered")),
        ("available_scraper", PyVal.list (a.scraper_tools.map (fun p => PyVal.str p.1))),
        ("success", PyVal.bool false)]), a)
    | Option.some scraper =>
      let a := { a with memory := a.memory.record_tool_call scraper_name }
      let scraped_data := execute_scraper scraper parsed_task
      if !truthy scraped_data then
        (Except.ok (PyVal.dict [
          ("error", PyVal.str "Could not scrape data"),
          ("task", task),
          ("success", PyVal.bool false)]), a)
      else
        match analyze_data scraped_data parsed_task with
        | Except.error e => (Except.error e, a)
        | Except.ok analysis =>
          let a := { a with memory := a.memory.add_finding analysis }
          let research_result : PyVal := PyVal.dict [
            ("query", dgetD parsed_task "query" PyVal.none),
            ("scraped_data", scraped_data),
            ("analysis", PyVal.str analysis),
            ("success", PyVal.bool true)]
          (Except.ok research_result,
            { a with search_results := a.search_results ++ [research_result] })

/-- Python r.get(k) on a log entry, total because the log only ever holds
dicts; used by get_research_summary. -/
def resGet (r : PyVal) (k : String) : PyVal :=
  match r with
  | .dict kvs => dgetD kvs k PyVal.none
  | _ => PyVal.none

/-- ResearchAgent.get_research_history. -/
def get_research_history (a : Agent) : List PyVal := a.search_results

/-- ResearchAgent.get_research_summary. -/
def get_research_summary (a : Agent) : PyVal :=
  PyVal.dict [
    ("total_research", PyVal.int a.search_results.length),
    ("successful", PyVal.int (a.search_results.countP (fun r => truthy (resGet r "success")))),
    ("queries", PyVal.list (a.search_results.map (fun r => resGet r "query"))),
    ("agent_memory", a.memory.get_summary)]

/-- ResearchAgent.clear_history. -/
def clear_history (a : Agent) : Agent := { a with search_results := [] }

/-- Is the value a string. -/
def isStrB : PyVal → Bool
  | .str _ => true
  | _ => false

/-- Is the value a dict. -/
def isDictB : PyVal → Bool
  | .dict _ => true
  | _ => false

/-- The optional results field, when present, is a mapping. -/
def okResults : Option PyVal → Bool
  | Option.none => true
  | Option.some (.dict _) => true
  | Option.some _ => false

/-- The optional articles field, when present, is a list of mappings. -/
def okArticles : Option PyVal → Bool
  | Option.none => true
  | Option.some (.list xs) => xs.all isDictB
  | Option.some _ => false

/-- An optional info sub-field, when present, is a list of strings. -/
def okStrListField : Option PyVal → Bool
  | Option.none => true
  | Option.some (.list xs) => xs.all isStrB
  | Option.some _ => false

/-- The optional info field, when present, is a mapping whose recognized
list-valued sub-fields are lists of strings. -/
def okInfo : Option PyVal → Bool
  | Option.none => true
  | Option.some (.dict ikvs) => generalFieldSpecs.all (fun p => okStrListField (dget ikvs p.1))
  | Option.some _ => false

/-- Well-shaped connector data: a mapping whose nested results, articles
and info fields, when present, have the shapes the formatter expects. On
such data _analyze_data cannot raise. -/
def wellShapedData : PyVal → Bool
  | .dict kvs =>
    okResults (dget kvs "results") && okArticles (dget kvs "articles") && okInfo (dget kvs "info")
  | _ => false

/-- A connector is well-behaved when every truthy value it returns without
raising is well-shaped. -/
def scraperWellBehaved (s : Scraper) : Prop :=
  (∀ f q v, s.fetch_prices = Option.some f → f q = Except.ok v → truthy v = true →
    wellShapedData v = true) ∧
  (∀ f q v, s.fetch_article = Option.some f → f q = Except.ok v → truthy v = true →
    wellShapedData v = true) ∧
  (∀ f q v, s.fetch_general = Option.some f → f q = Except.ok v → truthy v = true →
    wellShapedData v = true)

/-- Is the value a ResearchResult-shaped dict: either a success record
with query, scraped_data and analysis fields, or a failure record with a
non-empty error string. -/
def isResultShaped : PyVal → Bool
  | .dict kvs =>
    match dget kvs "success" with
    | Option.some (.bool true) =>
      (dget kvs "query").isSome && (dget kvs "scraped_data").isSome &&
        (dget kvs "analysis").isSome
    | Option.some (.bool false) =>
      match dget kvs "error" with
      | Option.some (.str e) => !e.isEmpty
      | _ => false
    | _ => false
  | _ => false

/-- Does a dict value carry the given top-level key. -/
def hasKeyB (r : PyVal) (k : String) : Bool :=
  match r with
  | .dict kvs => (dget kvs k).isSome
  | _ => false

/-- Every entry of the result log has truthy success, the projection that
get_research_summary counts. -/
def logAllSuccess (a : Agent) : Bool :=
  a.search_results.all (fun r => truthy (resGet r "success"))

/-- The outcome of run from the point where a scraper was resolved and the
tool call recorded, as a function of the scraped data: the tail of run. -/
def postFetch (task : PyVal) (parsed_task : List (String × PyVal)) (scraped_data : PyVal) :
    Except PyErr PyVal :=
  if !truthy scraped_data then
    Except.ok (PyVal.dict [
      ("error", PyVal.str "Could not scrape data"),
      ("task", task),
      ("success", PyVal.bool false)])
  else
    match analyze_data scraped_data parsed_task with
    | Except.error e => Except.error e
    | Except.ok analysis =>
      Except.ok (PyVal.dict [
        ("query", dgetD parsed_task "query" PyVal.none),
        ("scraped_data", scraped_data),
        ("analysis", PyVal.str analysis),
        ("success", PyVal.bool true)])

/-- The agent state right after run records the tool call, before the data
is analyzed. -/
def preFetchState (a : Agent) (task : PyVal) (scraper_name : String) : Agent :=
  { a with memory :=
      (((a.memory.set_task task).add_thoughts (thoughtMsg scraper_name)).record_tool_call
        scraper_name) }

/-- A connector violating the well-shapedness assumption: it answers the
probed fetch_prices with a mapping whose results field is a string, which
makes the crypto branch of _analyze_data raise AttributeError. -/
def badScraper : Scraper :=
  { fetch_prices := Option.some (fun _ => Except.ok (PyVal.dict [("results", PyVal.str "oops")])) }

/-- A harmless price connector returning a flat mapping. -/
def demoPriceScraper : Scraper :=
  { fetch_prices := Option.some (fun _ => Except.ok (PyVal.dict [("bitcoin", PyVal.str "45000")])) }

/-- A connector exposing all three probed capabilities, each answering
with a distinct marker string. -/
def demoProbeScraper : Scraper :=
  { fetch_prices := Option.some (fun _ => Except.ok (PyVal.str "P")),
    fetch_article := Option.some (fun _ => Except.ok (PyVal.str "A")),
    fetch_general := Option.some (fun _ => Except.ok (PyVal.str "G")) }

/-- Bind on an ok value reduces to the continuation. -/
@[simp] theorem except_ok_bind {α β : Type} (a : α) (f : α → Except PyErr β) :
    (Except.ok a >>= f) = f a := rfl

/-- Bind on an error propagates the error. -/
@[simp] theorem except_error_bind {α β : Type} (e : PyErr) (f : α → Except PyErr β) :
    (Except.error e >>= f) = Except.error e := rfl

/-- Looking up the key just written by dict assignment yields the new
value. -/
theorem dget_dictSet_self {α : Type} (d : List (String × α)) (k : String) (v : α) :
    dget (dictSet d k v) k = Option.some v := by
  induction d with
  | nil => simp [dictSet, dget, List.find?]
  | cons p rest ih =>
    obtain ⟨k0, v0⟩ := p
    by_cases h : k0 == k
    · simp [dictSet, h, dget, List.find?]
    · simp only [dictSet, h, if_false, Bool.false_eq_true, if_neg, reduceIte]
      simpa [dget, List.find?, h] using ih

/-- The dispatch decision is always one of the three registered names. -/
theorem decide_scraper_mem (parsed : List (String × PyVal)) :
    decide_scraper parsed = "crypto" ∨ decide_scraper parsed = "news" ∨
      decide_scraper parsed = "general" := by
  unfold decide_scraper
  by_cases h1 : pyEqStr (dgetD parsed "type" (PyVal.str "general")) "crypto" = true
  · left; simp [h1]
  · by_cases h2 : pyEqStr (dgetD parsed "type" (PyVal.str "general")) "news" = true
    · right; left; simp [h1, h2]
    · right; right; simp [h1, h2]

/-- Characterization of run: exactly one of the five paths is taken, and
on each path both the outcome and the final state are determined. -/
theorem run_path_spec (a : Agent) (task : PyVal) :
    (parse_task task = [] ∧
      run a task = (Except.ok (PyVal.dict [
        ("error", PyVal.str "Could not parse the research task"),
        ("task", task), ("success", PyVal.bool false)]),
        { a with memory := a.memory.set_task task })) ∨
    (∃ nm, (parse_task task).isEmpty = false ∧ nm = decide_scraper (parse_task task) ∧
      dget a.scraper_tools nm = Option.none ∧
      run a task = (Except.ok (PyVal.dict [
        ("error", PyVal.str ("Scraper \x27" ++ nm ++ "\x27 not registered")),
        ("available_scraper", PyVal.list (a.scraper_tools.map (fun p => PyVal.str p.1))),
        ("success", PyVal.bool false)]),
        { a with memory := (a.memory.set_task task).add_thoughts (thoughtMsg nm) })) ∨
    (∃ nm s, (parse_task task).isEmpty = false ∧ nm = decide_scraper (parse_task task) ∧
      dget a.scraper_tools nm = Option.some s ∧
      truthy (execute_scraper s (parse_task task)) = false ∧
      run a task = (Except.ok (PyVal.dict [
        ("error", PyVal.str "Could not scrape data"),
        ("task", task), ("success", PyVal.bool false)]),
        preFetchState a task nm)) ∨
    (∃ nm s e, (parse_task task).isEmpty = false ∧ nm = decide_scraper (parse_task task) ∧
      dget a.scraper_tools nm = Option.some s ∧
      truthy (execute_scraper s (parse_task task)) = true ∧
      analyze_data (execute_scraper s (parse_task task)) (parse_task task) = Except.error e ∧
      run a task = (Except.error e, preFetchState a task nm)) ∨
    (∃ nm s an, (parse_task task).isEmpty = false ∧ nm = decide_scraper (parse_task task) ∧
      dget a.scraper_tools nm = Option.some s ∧
      truthy (execute_scraper s (parse_task task)) = true ∧
      analyze_data (execute_scraper s (parse_task task)) (parse_task task) = Except.ok an ∧
      run a task = (Except.ok (PyVal.dict [
        ("query", dgetD (parse_task task) "query" PyVal.none),
        ("scraped_data", execute_scraper s (parse_task task)),
        ("analysis", PyVal.str an),
        ("success", PyVal.bool true)]),
        { a with
          memory := (((a.memory.set_task task).add_thoughts (thoughtMsg nm)).record_tool_call
            nm).add_finding an,
          search_results := a.search_results ++ [PyVal.dict [
            ("query", dgetD (parse_task task) "query" PyVal.none),
            ("scraped_data", execute_scraper s (parse_task task)),
            ("analysis", PyVal.str an),
            ("success", PyVal.bool true)]] })) := by
  by_cases hp : (parse_task task).isEmpty = true
  · left
    have hp' : parse_task task = [] := by simpa using hp
    exact ⟨hp', by simp [run, hp']⟩
  · have hp2 : (parse_task task).isEmpty = false := by simpa using hp
    cases hs : dget a.scraper_tools (decide_scraper (parse_task task)) with
    | none =>
      right; left
      exact ⟨_, hp2, rfl, hs, by simp [run, hp2, hs]⟩
    | some s =>
      by_cases ht : truthy (execute_scraper s (parse_task task)) = true
      · cases han : analyze_data (execute_scraper s (parse_task task)) (parse_task task) with
        | error e =>
          right; right; right; left
          exact ⟨_, _, _, hp2, rfl, hs, ht, han,
            by simp [run, hp2, hs, ht, han, preFetchState]⟩
        | ok an =>
          right; right; right; right
          exact ⟨_, _, _, hp2, rfl, hs, ht, han,
            by simp [run, hp2, hs, ht, han]⟩
      · have ht2 : truthy (execute_scraper s (parse_task task)) = false := by simpa using ht
        right; right; left
        exact ⟨_, _, hp2, rfl, hs, ht2, by simp [run, hp2, hs, ht2, preFetchState]⟩


/-- isOk on an ok value. -/
@[simp] theorem except_isOk_ok {α : Type} (a : α) :
    (Except.ok a : Except PyErr α).isOk = true := rfl

/-- isOk on an error value. -/
@[simp] theorem except_isOk_error {α : Type} (e : PyErr) :
    (Except.error e : Except PyErr α).isOk = false := rfl

/-- An Except value with isOk carries some ok payload. -/
theorem exists_ok {α : Type} {x : Except PyErr α} (h : x.isOk = true) :
    ∃ s, x = Except.ok s := by
  cases x with
  | ok a => exact ⟨a, rfl⟩
  | error e => simp at h

/-- Lists of strings survive element extraction for join. -/
theorem pyStrElems_isOk (xs : List PyVal) (h : xs.all isStrB = true) :
    (pyStrElems xs).isOk = true := by
  induction xs with
  | nil => rfl
  | cons x rest ih =>
    rw [List.all_cons, Bool.and_eq_true] at h
    obtain ⟨ss, hss⟩ := exists_ok (ih h.2)
    cases x with
    | str s => simp [pyStrElems, hss]
    | none => simp [isStrB] at h
    | bool b => simp [isStrB] at h
    | int n => simp [isStrB] at h
    | list ys => simp [isStrB] at h
    | dict kvs => simp [isStrB] at h

/-- Join succeeds on a list of strings. -/
theorem pyJoin_isOk (sep : String) (xs : List PyVal) (h : xs.all isStrB = true) :
    (pyJoin sep (PyVal.list xs)).isOk = true := by
  obtain ⟨ss, hss⟩ := exists_ok (pyStrElems_isOk xs h)
  simp [pyJoin, pyIter, hss]

/-- The news article loop succeeds on a list of dicts. -/
theorem newsLoop_isOk (arts : List PyVal) (h : arts.all isDictB = true) :
    ∀ i acc, (newsLoop i arts acc).isOk = true := by
  induction arts with
  | nil => intro i acc; rfl
  | cons x rest ih =>
    intro i acc
    rw [List.all_cons, Bool.and_eq_true] at h
    cases x with
    | dict kvs =>
      simp only [newsLoop, pyDictGet, except_ok_bind]
      exact ih h.2 _ _
    | none => simp [isDictB] at h
    | bool b => simp [isDictB] at h
    | int n => simp [isDictB] at h
    | str s => simp [isDictB] at h
    | list ys => simp [isDictB] at h

/-- The chain of optional general-info fields succeeds when every listed
field that is present is a list of strings. -/
theorem generalFields_isOk (ikvs : List (String × PyVal))
    (specs : List (String × String × String))
    (h : ∀ p ∈ specs, okStrListField (dget ikvs p.1) = true) :
    ∀ acc, (generalFields (PyVal.dict ikvs) specs acc).isOk = true := by
  induction specs with
  | nil => intro acc; rfl
  | cons p rest ih =>
    intro acc
    obtain ⟨k, label, sep⟩ := p
    have hk : okStrListField (dget ikvs k) = true := h (k, label, sep) (List.mem_cons_self _ _)
    have hrest : ∀ p ∈ rest, okStrListField (dget ikvs p.1) = true :=
      fun p hp => h p (List.mem_cons_of_mem _ hp)
    cases hdg : dget ikvs k with
    | none =>
      simp only [generalFields, pyContains, hdg, Option.isSome_none, except_ok_bind,
        Bool.false_eq_true, reduceIte]
      exact ih hrest acc
    | some v =>
      rw [hdg] at hk
      cases v with
      | list xs =>
        obtain ⟨j, hj⟩ := exists_ok (pyJoin_isOk sep xs (by simpa [okStrListField] using hk))
        simp only [generalFields, pyContains, pySubscript, hdg, Option.isSome_some,
          except_ok_bind, if_true, hj, reduceIte]
        exact ih hrest _
      | none => simp [okStrListField] at hk
      | bool b => simp [okStrListField] at hk
      | int n => simp [okStrListField] at hk
      | str s => simp [okStrListField] at hk
      | dict kvs2 => simp [okStrListField] at hk

/-- On well-shaped data the formatter cannot raise, for every parsed
task. -/
theorem analyze_isOk (data : PyVal) (parsed : List (String × PyVal))
    (h : wellShapedData data = true) : (analyze_data data parsed).isOk = true := by
  cases data with
  | dict kvs =>
    rw [wellShapedData, Bool.and_eq_true, Bool.and_eq_true] at h
    obtain ⟨⟨hres, hart⟩, hinfo⟩ := h
    by_cases htr : truthy (PyVal.dict kvs) = true
    · by_cases hcr : pyEqStr (dgetD parsed "type" PyVal.none) "crypto" = true
      · cases hdres : dget kvs "results" with
        | none => simp [analyze_data, htr, hcr, pyContains, pyItems, hdres]
        | some r =>
          rw [hdres] at hres
          cases r with
          | dict rkvs =>
            simp [analyze_data, htr, hcr, pyContains, pySubscript, pyDictGet, hdres]
          | none => simp [okResults] at hres
          | bool b => simp [okResults] at hres
          | int n => simp [okResults] at hres
          | str s => simp [okResults] at hres
          | list ys => simp [okResults] at hres
      · by_cases hnw : pyEqStr (dgetD parsed "type" PyVal.none) "news" = true
        · cases hdart : dget kvs "articles" with
          | none => simp [analyze_data, htr, hcr, hnw, pyContains, hdart]
          | some arts =>
            rw [hdart] at hart
            cases arts with
            | list xs =>
              simp only [analyze_data, htr, hcr, hnw, pyContains, pySubscript, pyIter, hdart,
                Bool.not_true, reduceIte, Option.isSome_some, except_ok_bind,
                Bool.false_eq_true]
              exact newsLoop_isOk xs (by simpa [okArticles] using hart) 1 _
            | none => simp [okArticles] at hart
            | bool b => simp [okArticles] at hart
            | int n => simp [okArticles] at hart
            | str s => simp [okArticles] at hart
            | dict kvs2 => simp [okArticles] at hart
        · by_cases hgn : pyEqStr (dgetD parsed "type" PyVal.none) "general" = true
          · cases hdinf : dget kvs "info" with
            | none => simp [analyze_data, htr, hcr, hnw, hgn, pyContains, hdinf]
            | some info =>
              rw [hdinf] at hinfo
              cases info with
              | dict ikvs =>
                simp only [analyze_data, htr, hcr, hnw, hgn, pyContains, pySubscript,
                  pyDictGet, hdinf, Bool.not_true, reduceIte, Option.isSome_some,
                  except_ok_bind, Bool.false_eq_true]
                have hall : ∀ (x y z : String), (x, y, z) ∈ generalFieldSpecs →
                    okStrListField (dget ikvs x) = true := by simpa [okInfo] using hinfo
                exact generalFields_isOk ikvs generalFieldSpecs
                  (fun p hp => hall p.1 p.2.1 p.2.2 hp) _
              | none => simp [okInfo] at hinfo
              | bool b => simp [okInfo] at hinfo
              | int n => simp [okInfo] at hinfo
              | str s => simp [okInfo] at hinfo
              | list ys => simp [okInfo] at hinfo
          · simp [analyze_data, htr, hcr, hnw, hgn]
    · simp [analyze_data, htr]
  | none => simp [wellShapedData] at h
  | bool b => simp [wellShapedData] at h
  | int n => simp [wellShapedData] at h
  | str s => simp [wellShapedData] at h
  | list ys => simp [wellShapedData] at h

/-- A well-behaved connector only hands truthy well-shaped data to the
orchestrator. -/
theorem execute_wellShaped (s : Scraper) (parsed : List (String × PyVal))
    (hw : scraperWellBehaved s) (ht : truthy (execute_scraper s parsed) = true) :
    wellShapedData (execute_scraper s parsed) = true := by
  obtain ⟨h1, h2, h3⟩ := hw
  cases hf1 : s.fetch_prices with
  | some f =>
    cases hr : f (PyVal.list [dgetD parsed "query" PyVal.none]) with
    | ok v =>
      have hexec : execute_scraper s parsed = v := by
        simp [execute_scraper, hf1, hr, fetchOutcome]
      rw [hexec] at ht ⊢
      exact h1 f _ v hf1 hr ht
    | error e =>
      have hexec : execute_scraper s parsed = PyVal.none := by
        simp [execute_scraper, hf1, hr, fetchOutcome]
      rw [hexec] at ht
      simp [truthy] at ht
  | none =>
    cases hf2 : s.fetch_article with
    | some f =>
      cases hr : f (dgetD parsed "query" PyVal.none) with
      | ok v =>
        have hexec : execute_scraper s parsed = v := by
          simp [execute_scraper, hf1, hf2, hr, fetchOutcome]
        rw [hexec] at ht ⊢
        exact h2 f _ v hf2 hr ht
      | error e =>
        have hexec : execute_scraper s parsed = PyVal.none := by
          simp [execute_scraper, hf1, hf2, hr, fetchOutcome]
        rw [hexec] at ht
        simp [truthy] at ht
    | none =>
      cases hf3 : s.fetch_general with
      | some f =>
        cases hr : f (dgetD parsed "query" PyVal.none) with
        | ok v =>
          have hexec : execute_scraper s parsed = v := by
            simp [execute_scraper, hf1, hf2, hf3, hr, fetchOutcome]
          rw [hexec] at ht ⊢
          exact h3 f _ v hf3 hr ht
        | error e =>
          have hexec : execute_scraper s parsed = PyVal.none := by
            simp [execute_scraper, hf1, hf2, hf3, hr, fetchOutcome]
          rw [hexec] at ht
          simp [truthy] at ht
      | none =>
        have hexec : execute_scraper s parsed = PyVal.none := by
          simp [execute_scraper, hf1, hf2, hf3]
        rw [hexec] at ht
        simp [truthy] at ht

/-- When a scraper is resolved, the outcome of run is the postFetch tail
applied to what that scraper produced. -/
theorem run_resolved_outcome (a : Agent) (task : PyVal) (s : Scraper)
    (hp : (parse_task task).isEmpty = false)
    (hs : dget a.scraper_tools (decide_scraper (parse_task task)) = Option.some s) :
    (run a task).1 = postFetch task (parse_task task) (execute_scraper s (parse_task task)) := by
  rcases run_path_spec a task with ⟨hp', _⟩ | ⟨nm, _, hnm, hn, _⟩ |
    ⟨nm, s2, _, hnm, hs2, ht, hrun⟩ | ⟨nm, s2, e, _, hnm, hs2, ht, han, hrun⟩ |
    ⟨nm, s2, an, _, hnm, hs2, ht, han, hrun⟩
  · rw [hp'] at hp; simp at hp
  · subst hnm; rw [hn] at hs; simp at hs
  · subst hnm; rw [hs] at hs2; obtain rfl : s2 = s := by simpa using hs2.symm
    rw [hrun]; simp [postFetch, ht]
  · subst hnm; rw [hs] at hs2; obtain rfl : s2 = s := by simpa using hs2.symm
    rw [hrun]; simp [postFetch, ht, han]
  · subst hnm; rw [hs] at hs2; obtain rfl : s2 = s := by simpa using hs2.symm
    rw [hrun]; simp [postFetch, ht, han]

/-- When a scraper is resolved, run records exactly one tool call. -/
theorem run_resolved_calls (a : Agent) (task : PyVal) (s : Scraper)
    (hp : (parse_task task).isEmpty = false)
    (hs : dget a.scraper_tools (decide_scraper (parse_task task)) = Option.some s) :
    (run a task).2.memory.tool_calls = a.memory.tool_calls + 1 := by
  rcases run_path_spec a task with ⟨hp', _⟩ | ⟨nm, _, hnm, hn, _⟩ |
    ⟨nm, s2, _, hnm, hs2, ht, hrun⟩ | ⟨nm, s2, e, _, hnm, hs2, ht, han, hrun⟩ |
    ⟨nm, s2, an, _, hnm, hs2, ht, han, hrun⟩
  · rw [hp'] at hp; simp at hp
  · subst hnm; rw [hn] at hs; simp at hs
  · rw [hrun]
    simp [preFetchState, Memory.set_task, Memory.add_thoughts, Memory.record_tool_call]
  · rw [hrun]
    simp [preFetchState, Memory.set_task, Memory.add_thoughts, Memory.record_tool_call]
  · rw [hrun]
    simp [Memory.set_task, Memory.add_thoughts, Memory.record_tool_call, Memory.add_finding]

/-- Every run whose task parses appends exactly its one dispatch thought
to the shared ledger. -/
theorem run_thoughts (a : Agent) (task : PyVal)
    (hp : (parse_task task).isEmpty = false) :
    (run a task).2.memory.thoughts
      = a.memory.thoughts ++ [thoughtMsg (decide_scraper (parse_task task))] := by
  rcases run_path_spec a task with ⟨hp', _⟩ | ⟨nm, _, hnm, hn, hrun⟩ |
    ⟨nm, s2, _, hnm, hs2, ht, hrun⟩ | ⟨nm, s2, e, _, hnm, hs2, ht, han, hrun⟩ |
    ⟨nm, s2, an, _, hnm, hs2, ht, han, hrun⟩
  · rw [hp'] at hp; simp at hp
  · subst hnm; rw [hrun]
    simp [Memory.set_task, Memory.add_thoughts]
  · subst hnm; rw [hrun]
    simp [preFetchState, Memory.set_task, Memory.add_thoughts, Memory.record_tool_call]
  · subst hnm; rw [hrun]
    simp [preFetchState, Memory.set_task, Memory.add_thoughts, Memory.record_tool_call]
  · subst hnm; rw [hrun]
    simp [Memory.set_task, Memory.add_thoughts, Memory.record_tool_call, Memory.add_finding]

/-- C1 (amended): for every task value and any registry whose connectors
are well-behaved (every truthy value they return is well-shaped), run
raises no exception and the returned value is ResearchResult-shaped; with
an arbitrary connector the formatter can raise, so the unconditional claim
fails. -/
theorem run_wellBehaved_total (a : Agent) (task : PyVal)
    (h : ∀ nm s, dget a.scraper_tools nm = Option.some s → scraperWellBehaved s) :
    (run a task).1.isOk = true ∧
    (∀ r, (run a task).1 = Except.ok r → isResultShaped r = true) := by
  rcases run_path_spec a task with ⟨hp', hrun⟩ | ⟨nm, hp2, hnm, hn, hrun⟩ |
    ⟨nm, s, hp2, hnm, hs, ht, hrun⟩ | ⟨nm, s, e, hp2, hnm, hs, ht, han, hrun⟩ |
    ⟨nm, s, an, hp2, hnm, hs, ht, han, hrun⟩
  · refine ⟨by rw [hrun]; rfl, ?_⟩
    intro r hr
    rw [hrun] at hr
    obtain rfl : _ = r := by simpa using hr
    rfl
  · rcases decide_scraper_mem (parse_task task) with hd | hd | hd <;>
      rw [← hnm] at hd <;> subst hd <;>
      refine ⟨by rw [hrun]; rfl, ?_⟩ <;> intro r hr <;> rw [hrun] at hr <;>
      · obtain rfl : _ = r := by simpa using hr
        rfl
  · refine ⟨by rw [hrun]; rfl, ?_⟩
    intro r hr
    rw [hrun] at hr
    obtain rfl : _ = r := by simpa using hr
    rfl
  · exfalso
    have hwb := h nm s hs
    have hws := execute_wellShaped s (parse_task task) hwb ht
    have hok := analyze_isOk (execute_scraper s (parse_task task)) (parse_task task) hws
    rw [han] at hok
    simp at hok
  · refine ⟨by rw [hrun]; rfl, ?_⟩
    intro r hr
    rw [hrun] at hr
    obtain rfl : _ = r := by simpa using hr
    rfl

/-- C1 witness: with an empty registry the hypothesis holds vacuously and
run terminates normally. -/
theorem run_wellBehaved_total_witness : ((run {} (PyVal.str "hi")).1).isOk = true :=
  (run_wellBehaved_total {} (PyVal.str "hi")
    (fun nm s h => by simp [dget, List.find?] at h)).1

/-- C1 counterexample: a registered connector answering the probe with a
mapping whose results field is a string makes run propagate an
AttributeError raised inside _analyze_data, so run does raise for some
set of registered connectors. -/
theorem run_raises_on_ill_shaped_data :
    (run (register_scraper (mkResearchAgent {} {} {}) "crypto" badScraper)
      (PyVal.str "bitcoin")).1 = Except.error PyErr.attributeError := rfl

/-- C2 (amended): exactly one result value is produced per run call;
a successful run appends exactly that result to the log, while a failed
run returns its failure result without appending, leaving the log
unchanged. -/
theorem run_log_growth (a : Agent) (task : PyVal) :
    (∃ kvs, (run a task).1 = Except.ok (PyVal.dict kvs) ∧
      dget kvs "success" = Option.some (PyVal.bool true) ∧
      (run a task).2.search_results = a.search_results ++ [PyVal.dict kvs]) ∨
    ((run a task).2.search_results = a.search_results ∧
      ∀ kvs, (run a task).1 = Except.ok (PyVal.dict kvs) →
        dget kvs "success" = Option.some (PyVal.bool false)) := by
  rcases run_path_spec a task with ⟨hp', hrun⟩ | ⟨nm, hp2, hnm, hn, hrun⟩ |
    ⟨nm, s, hp2, hnm, hs, ht, hrun⟩ | ⟨nm, s, e, hp2, hnm, hs, ht, han, hrun⟩ |
    ⟨nm, s, an, hp2, hnm, hs, ht, han, hrun⟩
  · right
    refine ⟨by rw [hrun], ?_⟩
    intro kvs hk
    rw [hrun] at hk
    obtain rfl : _ = kvs := by simpa using hk
    rfl
  · right
    refine ⟨by rw [hrun], ?_⟩
    intro kvs hk
    rw [hrun] at hk
    obtain rfl : _ = kvs := by simpa using hk
    rfl
  · right
    refine ⟨by rw [hrun]; rfl, ?_⟩
    intro kvs hk
    rw [hrun] at hk
    obtain rfl : _ = kvs := by simpa using hk
    rfl
  · right
    refine ⟨by rw [hrun]; rfl, ?_⟩
    intro kvs hk
    rw [hrun] at hk
    simp at hk
  · left
    refine ⟨[("query", dgetD (parse_task task) "query" PyVal.none),
        ("scraped_data", execute_scraper s (parse_task task)),
        ("analysis", PyVal.str an), ("success", PyVal.bool true)], ?_, rfl, ?_⟩
    · rw [hrun]
    · rw [hrun]

/-- C2 counterexample: a failed run call returns a failure-shaped result
but does not append anything: the log stays empty instead of growing by
one entry. -/
theorem failed_run_does_not_append :
    (run (mkResearchAgent {} {} {}) (PyVal.str "")).1
      = Except.ok (PyVal.dict [("error", PyVal.str "Could not parse the research task"),
          ("task", PyVal.str ""), ("success", PyVal.bool false)]) ∧
    (mkResearchAgent {} {} {} : Agent).search_results = [] ∧
    (run (mkResearchAgent {} {} {}) (PyVal.str "")).2.search_results = [] := ⟨rfl, rfl, rfl⟩

/-- C3: every non-empty task whose lowercased form contains bitcoin, btc
or crypto classifies to category crypto with query fixed to bitcoin and
topic the unmodified input, whatever else (news keywords included) the
text contains. -/
theorem classify_crypto (s : String) (hne : s.isEmpty = false)
    (hc : (strContains (strLower s) "bitcoin" || strContains (strLower s) "btc" ||
      strContains (strLower s) "crypto") = true) :
    parse_task (PyVal.str s) =
      [("topic", PyVal.str s), ("query", PyVal.str "bitcoin"), ("type", PyVal.str "crypto")] := by
  simp [parse_task, hne, hc]

/-- C3 witness: a task containing both a crypto synonym and news keywords
still classifies as crypto. -/
theorem classify_crypto_witness :
    ("Crypto news article".isEmpty = false) ∧
    parse_task (PyVal.str "Crypto news article") =
      [("topic", PyVal.str "Crypto news article"), ("query", PyVal.str "bitcoin"),
       ("type", PyVal.str "crypto")] :=
  ⟨rfl, classify_crypto "Crypto news article" rfl rfl⟩

/-- C4: null or empty task input makes the classifier return the empty
result without raising, and run on those inputs returns a failure result
with success false and a non-empty error string. -/
theorem classify_empty_inputs (a : Agent) :
    parse_task (PyVal.str "") = [] ∧ parse_task PyVal.none = [] ∧
    (run a (PyVal.str "")).1 = Except.ok (PyVal.dict [
      ("error", PyVal.str "Could not parse the research task"),
      ("task", PyVal.str ""), ("success", PyVal.bool false)]) ∧
    (run a PyVal.none).1 = Except.ok (PyVal.dict [
      ("error", PyVal.str "Could not parse the research task"),
      ("task", PyVal.none), ("success", PyVal.bool false)]) ∧
    "Could not parse the research task".isEmpty = false :=
  ⟨rfl, rfl, rfl, rfl, rfl⟩

/-- C5: when the classified category has no registered connector, run
returns a failure result carrying the registry keys as the available
connector list instead of raising. -/
theorem run_unregistered (a : Agent) (task : PyVal)
    (hp : (parse_task task).isEmpty = false)
    (hn : dget a.scraper_tools (decide_scraper (parse_task task)) = Option.none) :
    (run a task).1 = Except.ok (PyVal.dict [
      ("error", PyVal.str ("Scraper \x27" ++ decide_scraper (parse_task task) ++
        "\x27 not registered")),
      ("available_scraper", PyVal.list (a.scraper_tools.map (fun p => PyVal.str p.1))),
      ("success", PyVal.bool false)]) := by
  simp [run, hp, hn]

/-- C5 witness: an agent with an empty registry fails a general task with
the empty available list. -/
theorem run_unregistered_witness :
    (run ({} : Agent) (PyVal.str "hello world")).1 = Except.ok (PyVal.dict [
      ("error", PyVal.str "Scraper \x27general\x27 not registered"),
      ("available_scraper", PyVal.list []),
      ("success", PyVal.bool false)]) := by
  exact run_unregistered {} (PyVal.str "hello world") rfl rfl

/-- C6: the orchestrator probes fetch_prices, fetch_article, fetch_general
in that order and calls exactly the first capability present, passing
fetch_prices the query in a singleton list and the other two the query
itself; with no capability the invocation yields None. -/
theorem execute_scraper_priority (s : Scraper) (parsed : List (String × PyVal)) :
    (∀ f, s.fetch_prices = Option.some f →
      execute_scraper s parsed
        = fetchOutcome (f (PyVal.list [dgetD parsed "query" PyVal.none]))) ∧
    (s.fetch_prices = Option.none → ∀ f, s.fetch_article = Option.some f →
      execute_scraper s parsed = fetchOutcome (f (dgetD parsed "query" PyVal.none))) ∧
    (s.fetch_prices = Option.none → s.fetch_article = Option.none →
      ∀ f, s.fetch_general = Option.some f →
      execute_scraper s parsed = fetchOutcome (f (dgetD parsed "query" PyVal.none))) ∧
    (s.fetch_prices = Option.none → s.fetch_article = Option.none →
      s.fetch_general = Option.none → execute_scraper s parsed = PyVal.none) := by
  refine ⟨?_, ?_, ?_, ?_⟩ <;> intros <;> simp [execute_scraper, *]

/-- C6 witness: a connector exposing all three capabilities is invoked
through fetch_prices. -/
theorem execute_scraper_priority_witness :
    execute_scraper demoProbeScraper [] = PyVal.str "P" := by
  have h := (execute_scraper_priority demoProbeScraper []).1
    (fun _ => Except.ok (PyVal.str "P")) rfl
  simpa [fetchOutcome] using h

/-- C7: after registering a connector under name x, running a task that
classifies to x resolves exactly that connector, produces the outcome of
invoking it once, and increments the tool-call counter by exactly one. -/
theorem register_then_run (a : Agent) (x : String) (s : Scraper) (task : PyVal)
    (hp : (parse_task task).isEmpty = false)
    (hx : decide_scraper (parse_task task) = x) :
    dget (register_scraper a x s).scraper_tools x = Option.some s ∧
    (run (register_scraper a x s) task).1
      = postFetch task (parse_task task) (execute_scraper s (parse_task task)) ∧
    (run (register_scraper a x s) task).2.memory.tool_calls
      = (register_scraper a x s).memory.tool_calls + 1 := by
  have hreg : dget (register_scraper a x s).scraper_tools x = Option.some s := by
    simpa [register_scraper] using dget_dictSet_self a.scraper_tools x s
  have hs : dget (register_scraper a x s).scraper_tools (decide_scraper (parse_task task))
      = Option.some s := by rw [hx]; exact hreg
  exact ⟨hreg, run_resolved_outcome _ task s hp hs, run_resolved_calls _ task s hp hs⟩

/-- C7 witness: registering a price connector and running a btc task
records exactly one tool call. -/
theorem register_then_run_witness :
    (run (register_scraper {} "crypto" demoPriceScraper)
      (PyVal.str "btc please")).2.memory.tool_calls = 1 := by
  have h := register_then_run {} "crypto" demoPriceScraper (PyVal.str "btc please") rfl rfl
  exact h.2.2.trans rfl

/-- C8 (amended): the Orchestrator owns one shared Memory Ledger that is
never reset inside run, so the dispatch thoughts of two successive run
calls accumulate in order in the same trace. -/
theorem memory_ledger_accumulates (a : Agent) (t1 t2 : PyVal)
    (h1 : (parse_task t1).isEmpty = false) (h2 : (parse_task t2).isEmpty = false) :
    ((run (run a t1).2 t2).2).memory.thoughts
      = a.memory.thoughts ++ [thoughtMsg (decide_scraper (parse_task t1)),
          thoughtMsg (decide_scraper (parse_task t2))] := by
  rw [run_thoughts _ t2 h2, run_thoughts a t1 h1]
  simp

/-- C8 witness: two successive runs on a fresh agent leave both dispatch
thoughts in the single trace. -/
theorem memory_ledger_accumulates_witness :
    ((run (run ({} : Agent) (PyVal.str "gamma")).2 (PyVal.str "delta")).2).memory.thoughts
      = [thoughtMsg "general", thoughtMsg "general"] := by
  have h := memory_ledger_accumulates {} (PyVal.str "gamma") (PyVal.str "delta") rfl rfl
  exact h.trans rfl

/-- C8 counterexample: after two successive run calls the second trace
still contains the first thought, so the ledger is neither per-run nor
reset at the start of run. -/
theorem memory_ledger_not_reset :
    ((run (run (mkResearchAgent {} {} {}) (PyVal.str "alpha")).2
      (PyVal.str "beta")).2).memory.thoughts
      = ["Decided to use: \x27general\x27 scraper for this research",
         "Decided to use: \x27general\x27 scraper for this research"] := rfl

/-- C9: run preserves the invariant that every logged result has truthy
success, and under that invariant the summary reports successful equal to
total_research. -/
theorem log_success_invariant (a : Agent) (task : PyVal) (h : logAllSuccess a = true) :
    logAllSuccess (run a task).2 = true ∧
    resGet (get_research_summary (run a task).2) "successful"
      = resGet (get_research_summary (run a task).2) "total_research" := by
  have hpres : logAllSuccess (run a task).2 = true := by
    rcases run_path_spec a task with ⟨hp', hrun⟩ | ⟨nm, hp2, hnm, hn, hrun⟩ |
      ⟨nm, s, hp2, hnm, hs, ht, hrun⟩ | ⟨nm, s, e, hp2, hnm, hs, ht, han, hrun⟩ |
      ⟨nm, s, an, hp2, hnm, hs, ht, han, hrun⟩
    · rw [hrun]; exact h
    · rw [hrun]; exact h
    · rw [hrun]; exact h
    · rw [hrun]; exact h
    · rw [hrun]
      rw [logAllSuccess] at h ⊢
      simp only [List.all_append, h, Bool.true_and]
      rfl
  refine ⟨hpres, ?_⟩
  have hcount : ((run a task).2.search_results.countP (fun r => truthy (resGet r "success")))
      = (run a task).2.search_results.length :=
    List.countP_eq_length.mpr (List.all_eq_true.mp hpres)
  calc resGet (get_research_summary (run a task).2) "successful"
      = PyVal.int ((run a task).2.search_results.countP
          (fun r => truthy (resGet r "success"))) := rfl
    _ = PyVal.int (run a task).2.search_results.length := by rw [hcount]
    _ = resGet (get_research_summary (run a task).2) "total_research" := rfl

/-- C9 witness: the invariant holds of a fresh agent and survives a run. -/
theorem log_success_invariant_witness :
    logAllSuccess (run (mkResearchAgent {} {} {}) (PyVal.str "task one")).2 = true :=
  (log_success_invariant (mkResearchAgent {} {} {}) (PyVal.str "task one") rfl).1

/-- C10: a fresh agent registers connectors under exactly crypto, news and
general; the dispatcher only ever yields one of those names, the registry
lookup therefore always succeeds, and no run on a fresh agent can return
the unregistered-scraper failure (the only result shape carrying the
available_scraper key). -/
theorem fresh_agent_dispatch (c n g : Scraper) :
    (mkResearchAgent c n g).scraper_tools.map Prod.fst = ["crypto", "news", "general"] ∧
    (∀ parsed, decide_scraper parsed = "crypto" ∨ decide_scraper parsed = "news" ∨
      decide_scraper parsed = "general") ∧
    (∀ task, (dget (mkResearchAgent c n g).scraper_tools
      (decide_scraper (parse_task task))).isSome = true) ∧
    (∀ task r, (run (mkResearchAgent c n g) task).1 = Except.ok r →
      hasKeyB r "available_scraper" = false) := by
  refine ⟨rfl, decide_scraper_mem, ?_, ?_⟩
  · intro task
    rcases decide_scraper_mem (parse_task task) with hd | hd | hd <;> rw [hd] <;> rfl
  · intro task r hr
    rcases run_path_spec (mkResearchAgent c n g) task with ⟨hp', hrun⟩ |
      ⟨nm, hp2, hnm, hn, hrun⟩ | ⟨nm, s, hp2, hnm, hs, ht, hrun⟩ |
      ⟨nm, s, e, hp2, hnm, hs, ht, han, hrun⟩ | ⟨nm, s, an, hp2, hnm, hs, ht, han, hrun⟩
    · rw [hrun] at hr
      obtain rfl : _ = r := by simpa using hr
      rfl
    · exfalso
      rcases decide_scraper_mem (parse_task task) with hd | hd | hd <;>
        rw [← hnm] at hd <;> subst hd <;> simp [mkResearchAgent, register_scraper, dictSet,
          dget, List.find?] at hn
    · rw [hrun] at hr
      obtain rfl : _ = r := by simpa using hr
      rfl
    · rw [hrun] at hr
      simp at hr
    · rw [hrun] at hr
      obtain rfl : _ = r := by simpa using hr
      rfl

/-- C10 witness: a run on a fresh agent returns the no-data failure, which
does not carry the available_scraper key. -/
theorem fresh_agent_dispatch_witness :
    hasKeyB (PyVal.dict [("error", PyVal.str "Could not scrape data"),
      ("task", PyVal.str "hello"), ("success", PyVal.bool false)]) "available_scraper"
      = false :=
  (fresh_agent_dispatch {} {} {}).2.2.2 (PyVal.str "hello") _ rfl
